import Mathlib

/-!
Verification of the join composition logic of `src/duck_plus/relation.py`
(`Relation.using_join` and `Relation.asof_join`).

The embedding works over the data the Python code actually inspects: the
ordered column-name lists of the two relations, the relation aliases, the
requested key lists and the join-kind / operator strings.  Each Python
`raise ValueError(...)` site becomes a distinct error constructor carrying
exactly the data that the raised message carries; returning `.error e`
models "the exception is raised before any query is executed", while
`.ok plan` models the single engine call the function ends in (either the
native `DuckDBPyRelation.join` primitive, or `connection.sql` on the
synthesized query text).
-/

/-- Python `str.lower()`: lowercase every character. -/
def strLower (s : String) : String := ⟨s.data.map Char.toLower⟩

/-- Python `str.startswith(p)`: is `p` a prefix of `s`? -/
def strStartsWith (s p : String) : Bool := p.data.isPrefixOf s.data

/-- `[col.lower() for col in cols]`. -/
def lowerList (cols : List String) : List String := cols.map (fun c => strLower c)

/-- `col.lower() in set(c.lower() for c in cols)` — case-insensitive membership. -/
def memLower (c : String) (cols : List String) : Bool :=
  (lowerList cols).contains (strLower c)

/-- `relation.py`, `quote`: `f'"{col}"'`. -/
def quote (c : String) : String := "\"" ++ c ++ "\""

deriving instance DecidableEq for Except

/-- One constructor per distinct `raise ValueError` site of `using_join`,
carrying the data interpolated into the raised message. -/
inductive JoinError where
  /-- "Do not specify using_columns for natural joins." -/
  | explicitKeysForNatural
  /-- "No common columns for natural join." -/
  | noCommonColumns
  /-- "Unsupported natural join type: {how}" -/
  | unsupportedNaturalJoinType (how : String)
  /-- "using_columns must be specified and non-empty unless using a natural join." -/
  | emptyUsingColumns
  /-- "Duplicate columns specified in using_columns."  (names no column) -/
  | duplicateUsingColumns
  /-- "Columns missing in join: left: {missing_in_left} right: {missing_in_right}" -/
  | missingColumns (missingInLeft missingInRight : List String)
  deriving DecidableEq

/-- The single engine interaction a join call ends in: either a call to the
native join primitive `left_rel.join(right_rel, keys, joinType)`, or
`connection.sql(sql)` on synthesized query text. -/
inductive ExecPlan where
  | nativeCall (keys : List String) (joinType : String)
  | sqlQuery (sql : String)
  deriving DecidableEq

/-- `true` exactly when the plan executes synthesized query text. -/
def ExecPlan.isSql : ExecPlan → Bool
  | .nativeCall _ _ => false
  | .sqlQuery _ => true

/-- The `if how == "natural": ... elif ...` chain of `using_join`
(lines 69–82), mapping a natural kind string to the native join type;
`none` models falling through to the `raise` at line 82. -/
def naturalJoinType (how : String) : Option String :=
  if how = "natural" then some "inner"
  else if how = "natural left" then some "left"
  else if how = "natural right" then some "right"
  else if how = "natural full" ∨ how = "natural outer" then some "outer"
  else if how = "natural semi" then some "semi"
  else if how = "natural anti" then some "anti"
  else none

/-- `Relation.using_join` (relation.py lines 19–107), over the column lists of
the two relations.  `usingColumns = none` models `using_columns=None`.
`¬ (lowerList cs).Nodup` is Python's `len(lowered) != len(set(lowered))`. -/
def using_join (leftCols rightCols : List String) (how : String)
    (usingColumns : Option (List String)) : Except JoinError ExecPlan :=
  if strStartsWith how "natural" then
    -- `if using_columns is not None and len(using_columns) > 0: raise`
    let explicitKeys : Bool := match usingColumns with
      | some cs => cs.length > 0
      | none => false
    if explicitKeys then
      .error .explicitKeysForNatural
    else
      -- `common_cols = [col for col in left_rel.columns if col.lower() in right_cols_set]`
      let commonCols := leftCols.filter (fun c => memLower c rightCols)
      if commonCols = [] then .error .noCommonColumns
      else
        match naturalJoinType how with
        | some jt => .ok (.nativeCall commonCols jt)
        | none => .error (.unsupportedNaturalJoinType how)
  else
    match usingColumns with
    | none => .error .emptyUsingColumns
    | some cs =>
      if cs = [] then .error .emptyUsingColumns
      else if ¬ (lowerList cs).Nodup then .error .duplicateUsingColumns
      else
        let missingInLeft := cs.filter (fun c => !(memLower c leftCols))
        let missingInRight := cs.filter (fun c => !(memLower c rightCols))
        if missingInLeft ≠ [] ∨ missingInRight ≠ [] then
          .error (.missingColumns missingInLeft missingInRight)
        else
          -- `join_type = how` is passed through unvalidated (line 105)
          .ok (.nativeCall cs how)

/-- One constructor per distinct exception site of `asof_join` (the live
implementation, relation.py lines 109–213), in source order. -/
inductive AsofError where
  /-- "Left relation must have an alias for ASOF join." -/
  | leftAliasMissing
  /-- "Right relation must have an alias for ASOF join." -/
  | rightAliasMissing
  /-- "Columns {missing_in_self} not found in the first relation." -/
  | missingOnFirst (cols : List String)
  /-- "Columns {missing_in_other} not found in the second relation." -/
  | missingOnSecond (cols : List String)
  /-- "Columns {missing_by_self} not found in the first relation." -/
  | missingByFirst (cols : List String)
  /-- "Columns {missing_by_other} not found in the second relation." -/
  | missingBySecond (cols : List String)
  /-- `on_columns[0]` raises `IndexError` when `on` is an empty sequence. -/
  | emptyOnColumns
  /-- "Invalid operator: {operator}. Must be '>=', '<=', or 'nearest'." -/
  | invalidOperator (op : String)
  deriving DecidableEq

/-- Does the error message name the second relation as missing columns? -/
def AsofError.namesSecondRelation : AsofError → Bool
  | .missingOnSecond _ => true
  | .missingBySecond _ => true
  | _ => false

/-- The data `asof_join` assembles before its single `self.source.sql(sql)`
call: the resolved comparison column (`asof_col = on_columns[0]`), the
grouping columns, the operator, the output column names (the `AS` targets of
the select list, in order), the `ON` clause conjuncts, and the full query
text. -/
structure AsofPlan where
  onCol : String
  byCols : List String
  op : String
  selectNames : List String
  onClauses : List String
  sql : String
  deriving DecidableEq

/-- `Relation.asof_join` (relation.py lines 109–213, the reachable
implementation).  `onCols` is the normalized `on_columns` list (a string
argument becomes a one-element list); `byCols` is `by` (defaulted to `[]`).
Every branch mirrors a source line, in source order: alias checks (148–151),
`on` existence checks (162–167), `by` existence checks (169–174), the
`ON`-clause composition and operator dispatch (176–193), the select-list
construction (195–202, note line 197 lowercases the right column names),
and the final SQL text (204–209). -/
def asof_join (leftCols rightCols : List String) (leftAlias rightAlias : String)
    (onCols byCols : List String) (op : String) : Except AsofError AsofPlan :=
  if leftAlias = "" then .error .leftAliasMissing
  else if rightAlias = "" then .error .rightAliasMissing
  else
    let missingOnSelf := onCols.filter (fun c => !(memLower c leftCols))
    let missingOnOther := onCols.filter (fun c => !(memLower c rightCols))
    if missingOnSelf ≠ [] then .error (.missingOnFirst missingOnSelf)
    else if missingOnOther ≠ [] then .error (.missingOnSecond missingOnOther)
    else
      let missingBySelf := byCols.filter (fun c => !(memLower c leftCols))
      let missingByOther := byCols.filter (fun c => !(memLower c rightCols))
      if missingBySelf ≠ [] then .error (.missingByFirst missingBySelf)
      else if missingByOther ≠ [] then .error (.missingBySecond missingByOther)
      else
        match onCols with
        | [] => .error .emptyOnColumns
        | asofCol :: _ =>
          -- `on_clauses.append(f"{left_alias}.{quote(col)} = {right_alias}.{quote(col)}")`
          let byClauses := byCols.map (fun c =>
            leftAlias ++ "." ++ quote c ++ " = " ++ rightAlias ++ "." ++ quote c)
          let opClause : Option String :=
            if op = ">=" then
              some (leftAlias ++ "." ++ quote asofCol ++ " >= " ++ rightAlias ++ "." ++ quote asofCol)
            else if op = "<=" then
              some (leftAlias ++ "." ++ quote asofCol ++ " <= " ++ rightAlias ++ "." ++ quote asofCol)
            else if op = "nearest" then
              some ("ABS(" ++ leftAlias ++ "." ++ quote asofCol ++ " - " ++ rightAlias ++ "." ++
                quote asofCol ++ ") = (" ++ "SELECT MIN(ABS(" ++ leftAlias ++ "." ++
                quote asofCol ++ " - " ++ rightAlias ++ "." ++ quote asofCol ++ ")) " ++
                "FROM " ++ rightAlias ++ ")")
            else none
          match opClause with
          | none => .error (.invalidOperator op)
          | some cl =>
            let onClauses := byClauses ++ [cl]
            -- `right_columns = [col.lower() for col in right_rel.columns]` (line 197)
            -- and the filter `if col.lower() not in [c.lower() for c in left_columns]`
            let keptRight := (lowerList rightCols).filter
              (fun c => !((lowerList leftCols).contains (strLower c)))
            let selectCols :=
              leftCols.map (fun c => leftAlias ++ "." ++ quote c ++ " AS " ++ quote c) ++
              keptRight.map (fun c => rightAlias ++ "." ++ quote c ++ " AS " ++ quote c)
            let selectClause := String.intercalate ",\n        " selectCols
            let sql :=
              "\n        SELECT " ++ selectClause ++
              "\n        FROM " ++ leftAlias ++
              "\n        LEFT JOIN " ++ rightAlias ++
              "\n        ON " ++ String.intercalate " AND " onClauses ++
              "\n        "
            .ok { onCol := asofCol, byCols := byCols, op := op,
                  selectNames := leftCols ++ keptRight,
                  onClauses := onClauses, sql := sql }

/-- Output column names of a successful plan; `[]` on error. -/
def selectNamesOr (e : Except AsofError AsofPlan) : List String :=
  match e with
  | .ok p => p.selectNames
  | .error _ => []

/-!  Semantics of the query text `asof_join` emits.  The emitted query always
has the fixed shape `SELECT π FROM l LEFT JOIN r ON P₁ AND ... AND Pₖ`, so
its standard SQL meaning is: for every left row, the rows of the right input
satisfying the `ON` conjunction; a left row with no satisfying right row is
kept once with a null right side.  Rows are finite maps from column name to
an integer value (integers suffice for the comparison semantics the claims
are about). -/

/-- A row: an association list from column name to value. -/
abbrev Row := List (String × Int)

/-- Value of column `c` in row `ρ` (0 for an absent column). -/
def rowGet (ρ : Row) (c : String) : Int :=
  match ρ.find? (fun p => p.1 == c) with
  | some p => p.2
  | none => 0

/-- The grouping conjuncts `l.\x7bc\x7d = r.\x7bc\x7d` for every `by` column. -/
def byEqRows (byCols : List String) (l r : Row) : Bool :=
  byCols.all (fun c => rowGet l c == rowGet r c)

/-- `ABS(l.c - r.c)` for the comparison column. -/
def absDiff (onCol : String) (l r : Row) : Nat :=
  (rowGet l onCol - rowGet r onCol).natAbs

/-- SQL `MIN` aggregate over a list of naturals (`none` on empty input,
modelling the aggregate's NULL). -/
def minNat : List Nat → Option Nat
  | [] => none
  | x :: rest => some (rest.foldl Nat.min x)

/-- The scalar subquery `SELECT MIN(ABS(l.c - r.c)) FROM r` of the `nearest`
clause: `l` is correlated to the outer left row, while `r` ranges over all
rows of the right input (the subquery has no WHERE, so grouping columns do
not restrict it). -/
def globalMinAbs (onCol : String) (l : Row) (rs : List Row) : Option Nat :=
  minNat (rs.map (fun r => absDiff onCol l r))

/-- Truth of the emitted `ON` conjunction for a left row and a right row:
the grouping equalities, and the operator clause (`>=`, `<=`, or the
`ABS(...) = (SELECT MIN ...)` clause for `nearest`). -/
def asofPred (op onCol : String) (byCols : List String) (rs : List Row)
    (l r : Row) : Bool :=
  byEqRows byCols l r &&
  (if op = ">=" then decide (rowGet r onCol ≤ rowGet l onCol)
   else if op = "<=" then decide (rowGet l onCol ≤ rowGet r onCol)
   else if op = "nearest" then
     match globalMinAbs onCol l rs with
     | some m => decide (absDiff onCol l r = m)
     | none => false
   else false)

/-- Standard semantics of `FROM l LEFT JOIN r ON pred`: each left row paired
with every right row satisfying the predicate, or with `none` when no right
row satisfies it. -/
def leftJoinMatches (pred : Row → Row → Bool) (ls rs : List Row) :
    List (Row × Option Row) :=
  ls.flatMap (fun l =>
    match rs.filter (pred l) with
    | [] => [(l, none)]
    | ms => ms.map (fun r => (l, some r)))

/-- The result rows of executing the query text of a plan on concrete
inputs. -/
def asofRun (p : AsofPlan) (ls rs : List Row) : List (Row × Option Row) :=
  leftJoinMatches (asofPred p.op p.onCol p.byCols rs) ls rs

/-- `asofRun` through the `Except`: the rows the emitted query returns on a
successful call, `[]` when the call raised. -/
def asofRunOr (e : Except AsofError AsofPlan) (ls rs : List Row) :
    List (Row × Option Row) :=
  match e with
  | .ok p => asofRun p ls rs
  | .error _ => []

/-! ### Helper lemmas -/

set_option maxHeartbeats 1000000 in
/-- Inversion for a successful `asof_join`: the plan's grouping columns,
operator and comparison column are the ones passed in (the comparison column
being the head of `onCols`), and the select-list names are the left columns
followed by the lowercased, case-insensitively non-colliding right columns. -/
theorem asof_join_ok_fields (L R : List String) (la ra : String)
    (onCols byCols : List String) (op : String) (plan : AsofPlan)
    (h : asof_join L R la ra onCols byCols op = .ok plan) :
    plan.byCols = byCols ∧ plan.op = op ∧
    plan.selectNames = L ++ (lowerList R).filter
      (fun c => !((lowerList L).contains (strLower c))) ∧
    ∀ a rest, onCols = a :: rest → plan.onCol = a := by
  cases onCols with
  | nil =>
    exfalso
    simp only [asof_join] at h
    repeat' split at h
    all_goals exact Except.noConfusion h
  | cons asofCol tail =>
    simp only [asof_join] at h
    repeat' split at h
    all_goals try exact Except.noConfusion h
    injection h with h2
    subst h2
    refine ⟨rfl, rfl, rfl, ?_⟩
    intro a rest heq
    injection heq with h1 _

/-- Membership characterization of the matched rows of a left outer join:
`(l, some r)` is an output row exactly when `l` is a left row, `r` a right
row, and the join predicate holds of the pair. -/
theorem mem_some_leftJoinMatches (pred : Row → Row → Bool) (ls rs : List Row)
    (l r : Row) :
    (l, some r) ∈ leftJoinMatches pred ls rs ↔
      l ∈ ls ∧ r ∈ rs ∧ pred l r = true := by
  unfold leftJoinMatches
  rw [List.mem_flatMap]
  constructor
  · rintro ⟨l1, hl1, hmem⟩
    rcases hfilter : rs.filter (pred l1) with _ | ⟨m, ms⟩
    · rw [hfilter] at hmem
      simp at hmem
    · rw [hfilter] at hmem
      simp only [List.mem_map] at hmem
      obtain ⟨r1, hr1, heq⟩ := hmem
      simp only [Prod.mk.injEq, Option.some.injEq] at heq
      obtain ⟨heqL, heqR⟩ := heq
      have hrf : r1 ∈ rs.filter (pred l1) := by rw [hfilter]; exact hr1
      obtain ⟨hrr, hpp⟩ := List.mem_filter.mp hrf
      refine ⟨?_, ?_, ?_⟩
      · rw [← heqL]; exact hl1
      · rw [← heqR]; exact hrr
      · rw [← heqL, ← heqR]; exact hpp
  · rintro ⟨hl, hr, hp⟩
    refine ⟨l, hl, ?_⟩
    have hmem : r ∈ rs.filter (pred l) := List.mem_filter.mpr ⟨hr, hp⟩
    rcases hfilter : rs.filter (pred l) with _ | ⟨m, ms⟩
    · rw [hfilter] at hmem
      simp at hmem
    · rw [hfilter] at hmem
      show (l, some r) ∈ (m :: ms).map (fun r => (l, some r))
      exact List.mem_map.mpr ⟨r, hmem, rfl⟩

/-- Truth of the `nearest` join predicate: the grouping equalities hold and
the pair's absolute difference equals the minimum absolute difference over
all right rows. -/
theorem asofPred_nearest (onC : String) (byCols : List String) (rs : List Row)
    (l r : Row) :
    asofPred "nearest" onC byCols rs l r = true ↔
      byEqRows byCols l r = true ∧
      globalMinAbs onC l rs = some (absDiff onC l r) := by
  unfold asofPred
  rw [Bool.and_eq_true]
  rw [if_neg (by decide : ¬ (("nearest" : String) = ">=")),
    if_neg (by decide : ¬ (("nearest" : String) = "<=")), if_pos rfl]
  constructor
  · rintro ⟨hby, hmin⟩
    refine ⟨hby, ?_⟩
    rcases hg : globalMinAbs onC l rs with _ | m
    · rw [hg] at hmin
      simp at hmin
    · rw [hg] at hmin
      simp only [decide_eq_true_eq] at hmin
      rw [hmin]
  · rintro ⟨hby, hmin⟩
    refine ⟨hby, ?_⟩
    rw [hmin]
    exact decide_eq_true rfl

/-! ### C1: output column list of a join -/

/-- C1, counterexample: the claim says no output column is renamed, but
`asof_join` emits the right-side column "Price" under the lowercased name
"price" (line 197 lowercases right column names before building the select
list), so the output column list is not the left columns followed by the
non-colliding right columns in their original casing. -/
theorem c1_counterexample :
    selectNamesOr (asof_join ["id", "ts"] ["id", "ts", "Price"] "l" "r"
      ["ts"] [] ">=") = ["id", "ts", "price"] ∧
    (["id", "ts", "price"] : List String) ≠ ["id", "ts", "Price"] := by decide

/-- C1, amended: every successful `asof_join` projects exactly the left
columns, in original order and casing, followed by the right columns whose
case-folded name does not appear among the left columns — but those right
columns are emitted with lowercased names.  (`using_join` performs no
projection of its own: its column layout is whatever the engine's native
join primitive produces.) -/
theorem c1_asof_output_columns (L R : List String) (la ra : String)
    (onCols byCols : List String) (op : String) (plan : AsofPlan)
    (h : asof_join L R la ra onCols byCols op = .ok plan) :
    plan.selectNames = L ++ (lowerList R).filter
      (fun c => !((lowerList L).contains (strLower c))) :=
  (asof_join_ok_fields L R la ra onCols byCols op plan h).2.2.1

/-- C1, witness: `c1_asof_output_columns` applied at a concrete input: left
columns `["A"]`, right columns `["a", "B"]` yield output names `["A", "b"]`. -/
theorem c1_witness :
    selectNamesOr (asof_join ["A"] ["a", "B"] "lt" "rt" ["a"] [] "<=") =
      ["A", "b"] := by
  have hok : asof_join ["A"] ["a", "B"] "lt" "rt" ["a"] [] "<=" =
      .ok { onCol := "a", byCols := [], op := "<=", selectNames := ["A", "b"],
            onClauses := ["lt.\"a\" <= rt.\"a\""],
            sql := "\n        SELECT lt.\"A\" AS \"A\",\n        rt.\"b\" AS \"b\"\n        FROM lt\n        LEFT JOIN rt\n        ON lt.\"a\" <= rt.\"a\"\n        " } := by
    decide
  rw [hok]
  show ({ onCol := "a", byCols := [], op := "<=", selectNames := ["A", "b"],
          onClauses := ["lt.\"a\" <= rt.\"a\""],
          sql := "\n        SELECT lt.\"A\" AS \"A\",\n        rt.\"b\" AS \"b\"\n        FROM lt\n        LEFT JOIN rt\n        ON lt.\"a\" <= rt.\"a\"\n        " } : AsofPlan).selectNames = ["A", "b"]
  rw [c1_asof_output_columns ["A"] ["a", "B"] "lt" "rt" ["a"] [] "<=" _ hok]
  decide

/-! ### C2: natural-join key inference -/

/-- C2, counterexample: the claim says two left columns differing only in
case contribute the join key exactly once, but the inference
`[col for col in left if col.lower() in right_set]` keeps both "ID" and
"id", so the key list has two entries with the same case-folded name. -/
theorem c2_counterexample :
    using_join ["ID", "id"] ["id"] "natural" none =
      .ok (.nativeCall ["ID", "id"] "inner") ∧
    lowerList ["ID", "id"] = ["id", "id"] ∧
    (["ID", "id"] : List String).length ≠ 1 := by decide

/-- C2, amended: natural-join inference produces every left column whose
case-folded name appears among the right columns, in left order (so two
left columns differing only in case each contribute an entry); when this
set is empty the call fails with the no-common-columns error before any
join is executed. -/
theorem c2_natural_key_inference (L R : List String) :
    using_join L R "natural" none =
      (if L.filter (fun c => memLower c R) = [] then .error .noCommonColumns
       else .ok (.nativeCall (L.filter (fun c => memLower c R)) "inner")) := by
  have hs : strStartsWith "natural" "natural" = true := by decide
  have hn : naturalJoinType "natural" = some "inner" := by decide
  by_cases hc : L.filter (fun c => memLower c R) = []
  · simp [using_join, hs, hc]
  · simp [using_join, hs, hn, hc]

/-! ### C3: execution strategy of natural-semi and natural-anti -/

/-- C3, counterexample: the claim says natural-semi joins are executed by
synthesizing a `WHERE [NOT] EXISTS` query, but `using_join` maps
"natural semi" to the native join primitive with join type "semi"
(lines 77–78 and 84) and synthesizes no query text at all. -/
theorem c3_counterexample :
    using_join ["id", "a"] ["id", "b"] "natural semi" none =
      .ok (.nativeCall ["id"] "semi") ∧
    ExecPlan.isSql (.nativeCall ["id"] "semi") = false := by decide

/-- C3, amended: for any pair of relations with at least one common
case-folded column, "natural semi" and "natural anti" are executed through
the engine's native join primitive with the inferred keys and join types
"semi" / "anti"; no query text is synthesized. -/
theorem c3_natural_semi_anti_native (L R : List String)
    (h : L.filter (fun c => memLower c R) ≠ []) :
    using_join L R "natural semi" none =
      .ok (.nativeCall (L.filter (fun c => memLower c R)) "semi") ∧
    using_join L R "natural anti" none =
      .ok (.nativeCall (L.filter (fun c => memLower c R)) "anti") := by
  constructor
  · have hs : strStartsWith "natural semi" "natural" = true := by decide
    have hn : naturalJoinType "natural semi" = some "semi" := by decide
    simp [using_join, hs, hn, h]
  · have hs : strStartsWith "natural anti" "natural" = true := by decide
    have hn : naturalJoinType "natural anti" = some "anti" := by decide
    simp [using_join, hs, hn, h]

/-- C3, witness: `c3_natural_semi_anti_native` at concrete relations sharing
the case-folded column "k". -/
theorem c3_witness :
    using_join ["k", "x"] ["K", "y"] "natural semi" none =
      .ok (.nativeCall ["k"] "semi") ∧
    using_join ["k", "x"] ["K", "y"] "natural anti" none =
      .ok (.nativeCall ["k"] "anti") :=
  c3_natural_semi_anti_native ["k", "x"] ["K", "y"] (by decide)

/-! ### C4: duplicate join keys -/

/-- C4, counterexample: the claim says `using_columns=["id","id"]` fails with
the duplicate-key error for every join kind, but for kind "natural" the call
fails earlier with the explicit-keys-not-allowed error, which is a different
error (and the duplicate-columns message itself names no column). -/
theorem c4_counterexample :
    using_join ["id"] ["id"] "natural" (some ["id", "id"]) =
      .error .explicitKeysForNatural ∧
    JoinError.explicitKeysForNatural ≠ JoinError.duplicateUsingColumns := by decide

/-- C4, amended: for every non-natural join kind and any relations,
a non-empty key list with a case-insensitive duplicate fails with the
duplicate-columns error (whose message does not name the column) before any
query is executed; for natural kinds such a call fails with the
explicit-keys-not-allowed error instead. -/
theorem c4_duplicate_keys_rejected (L R : List String) (how : String)
    (cs : List String) (h1 : strStartsWith how "natural" = false)
    (h2 : cs ≠ []) (h3 : ¬ (lowerList cs).Nodup) :
    using_join L R how (some cs) = .error .duplicateUsingColumns := by
  simp [using_join, h1, h2, h3]

/-- C4, witness: `c4_duplicate_keys_rejected` at kind "left" with the
case-insensitively duplicated key list `["K", "k"]`. -/
theorem c4_witness :
    using_join ["a"] ["b"] "left" (some ["K", "k"]) =
      .error .duplicateUsingColumns :=
  c4_duplicate_keys_rejected ["a"] ["b"] "left" ["K", "k"]
    (by decide) (by decide) (by decide)

/-! ### C5: missing join columns -/

/-- C5, counterexample: the claim says the error identifies which side or
sides are missing which columns, but for an `asof_join` key absent from
both relations the code raises only the first-relation error (line 165
fires before line 167), so the second relation is never named. -/
theorem c5_counterexample :
    asof_join ["a"] ["b"] "l" "r" ["x"] [] ">=" =
      .error (.missingOnFirst ["x"]) ∧
    memLower "x" ["a"] = false ∧
    memLower "x" ["b"] = false ∧
    AsofError.namesSecondRelation (.missingOnFirst ["x"]) = false := by decide

/-- C5, amended: a requested key absent (case-insensitively) from a relation
always makes the call fail before any query is executed, for every kind of
requested key — `using_join` key lists, `asof_join` primary (`on`) columns
and `asof_join` grouping (`by`) columns.  `using_join` raises one error
naming each side's missing columns; `asof_join` runs its four checks in
order — `on` missing on the first relation, `on` missing on the second,
`by` missing on the first, `by` missing on the second — and raises the
first failing one, naming only that one relation and its missing columns
(so a key missing on both sides reports only the first relation). -/
theorem c5_missing_columns_reported :
    (∀ (L R : List String) (how : String) (cs : List String),
      strStartsWith how "natural" = false → cs ≠ [] → (lowerList cs).Nodup →
      (cs.filter (fun c => !(memLower c L)) ≠ [] ∨
        cs.filter (fun c => !(memLower c R)) ≠ []) →
      using_join L R how (some cs) =
        .error (.missingColumns (cs.filter (fun c => !(memLower c L)))
          (cs.filter (fun c => !(memLower c R))))) ∧
    (∀ (L R : List String) (la ra : String) (onCols byCols : List String)
      (op : String),
      la ≠ "" → ra ≠ "" →
      onCols.filter (fun c => !(memLower c L)) ≠ [] →
      asof_join L R la ra onCols byCols op =
        .error (.missingOnFirst (onCols.filter (fun c => !(memLower c L))))) ∧
    (∀ (L R : List String) (la ra : String) (onCols byCols : List String)
      (op : String),
      la ≠ "" → ra ≠ "" →
      onCols.filter (fun c => !(memLower c L)) = [] →
      onCols.filter (fun c => !(memLower c R)) ≠ [] →
      asof_join L R la ra onCols byCols op =
        .error (.missingOnSecond (onCols.filter (fun c => !(memLower c R))))) ∧
    (∀ (L R : List String) (la ra : String) (onCols byCols : List String)
      (op : String),
      la ≠ "" → ra ≠ "" →
      onCols.filter (fun c => !(memLower c L)) = [] →
      onCols.filter (fun c => !(memLower c R)) = [] →
      byCols.filter (fun c => !(memLower c L)) ≠ [] →
      asof_join L R la ra onCols byCols op =
        .error (.missingByFirst (byCols.filter (fun c => !(memLower c L))))) ∧
    (∀ (L R : List String) (la ra : String) (onCols byCols : List String)
      (op : String),
      la ≠ "" → ra ≠ "" →
      onCols.filter (fun c => !(memLower c L)) = [] →
      onCols.filter (fun c => !(memLower c R)) = [] →
      byCols.filter (fun c => !(memLower c L)) = [] →
      byCols.filter (fun c => !(memLower c R)) ≠ [] →
      asof_join L R la ra onCols byCols op =
        .error (.missingBySecond (byCols.filter (fun c => !(memLower c R))))) := by
  refine ⟨?_, ?_, ?_, ?_, ?_⟩
  · intro L R how cs h1 h2 h3 h4
    unfold using_join
    rw [if_neg (by simp [h1])]
    show (if cs = [] then _ else _) = _
    rw [if_neg h2, if_neg (not_not_intro h3), if_pos h4]
  · intro L R la ra onCols byCols op hla hra h4
    unfold asof_join
    rw [if_neg hla, if_neg hra, if_pos h4]
  · intro L R la ra onCols byCols op hla hra h3 h4
    unfold asof_join
    rw [if_neg hla, if_neg hra, if_neg (by simp [h3]), if_pos h4]
  · intro L R la ra onCols byCols op hla hra h3 h4 h5
    unfold asof_join
    rw [if_neg hla, if_neg hra, if_neg (by simp [h3]), if_neg (by simp [h4]),
      if_pos h5]
  · intro L R la ra onCols byCols op hla hra h3 h4 h5 h6
    unfold asof_join
    rw [if_neg hla, if_neg hra, if_neg (by simp [h3]), if_neg (by simp [h4]),
      if_neg (by simp [h5]), if_pos h6]

/-- C5, witness: `c5_missing_columns_reported` at concrete inputs — an
inner join with key "v" missing on both sides, an as-of join with `on`
column "Z" missing on the left, one with `on` column "w" missing only on
the right, one with `by` column "g" missing on the left, and one with `by`
column "h" missing only on the right. -/
theorem c5_witness :
    using_join ["id"] ["id"] "inner" (some ["id", "v"]) =
      .error (.missingColumns ["v"] ["v"]) ∧
    asof_join ["p"] ["q"] "l2" "r2" ["Z"] [] ">=" =
      .error (.missingOnFirst ["Z"]) ∧
    asof_join ["t", "w"] ["t"] "l3" "r3" ["t", "w"] [] ">=" =
      .error (.missingOnSecond ["w"]) ∧
    asof_join ["t"] ["t", "g"] "l4" "r4" ["t"] ["g"] ">=" =
      .error (.missingByFirst ["g"]) ∧
    asof_join ["t", "h"] ["t"] "l5" "r5" ["t"] ["h"] ">=" =
      .error (.missingBySecond ["h"]) := by
  refine ⟨?_, ?_, ?_, ?_, ?_⟩
  · exact c5_missing_columns_reported.1 ["id"] ["id"] "inner" ["id", "v"]
      (by decide) (by decide) (by decide) (by decide)
  · exact c5_missing_columns_reported.2.1 ["p"] ["q"] "l2" "r2" ["Z"] [] ">="
      (by decide) (by decide) (by decide)
  · exact c5_missing_columns_reported.2.2.1 ["t", "w"] ["t"] "l3" "r3"
      ["t", "w"] [] ">=" (by decide) (by decide) (by decide) (by decide)
  · exact c5_missing_columns_reported.2.2.2.1 ["t"] ["t", "g"] "l4" "r4"
      ["t"] ["g"] ">=" (by decide) (by decide) (by decide) (by decide)
      (by decide)
  · exact c5_missing_columns_reported.2.2.2.2 ["t", "h"] ["t"] "l5" "r5"
      ["t"] ["h"] ">=" (by decide) (by decide) (by decide) (by decide)
      (by decide) (by decide)

/-! ### C6: join-kind validation -/

/-- C6, counterexample: the claim says every kind string outside the closed
set fails with the unsupported-kind error and no query executes, but the
kind "cross" (outside the set) is passed straight through to the native
join primitive as the join type (line 105, `join_type = how`), and a query
is executed. -/
theorem c6_counterexample :
    using_join ["id"] ["id"] "cross" (some ["id"]) =
      .ok (.nativeCall ["id"] "cross") := by decide

/-- C6, amended: only strings starting with "natural" are validated — one
outside {natural, natural left, natural right, natural full, natural outer,
natural semi, natural anti} fails with the unsupported-natural-join-type
error before any query executes (given a non-empty common column set, which
is checked first); any other kind string is passed to the native join
primitive unvalidated. -/
theorem c6_kind_validation :
    (∀ (L R : List String) (how : String),
      strStartsWith how "natural" = true → naturalJoinType how = none →
      L.filter (fun c => memLower c R) ≠ [] →
      using_join L R how none = .error (.unsupportedNaturalJoinType how)) ∧
    (∀ (L R : List String) (how : String) (cs : List String),
      strStartsWith how "natural" = false → cs ≠ [] → (lowerList cs).Nodup →
      cs.filter (fun c => !(memLower c L)) = [] →
      cs.filter (fun c => !(memLower c R)) = [] →
      using_join L R how (some cs) = .ok (.nativeCall cs how)) := by
  constructor
  · intro L R how h1 h2 h3
    unfold using_join
    rw [if_pos h1]
    show (if _ then _ else _) = _
    rw [if_neg (by simp), if_neg h3, h2]
  · intro L R how cs h1 h2 h3 h4 h5
    unfold using_join
    rw [if_neg (by simp [h1])]
    show (if cs = [] then _ else _) = _
    rw [if_neg h2, if_neg (not_not_intro h3), if_neg (by simp [h4, h5])]

/-- C6, witness: `c6_kind_validation` at concrete inputs — the hyphenated
kind "natural-semi" is rejected as an unsupported natural join type, while
the unknown kind "cross2" is passed through without any error. -/
theorem c6_witness :
    using_join ["id"] ["id"] "natural-semi" none =
      .error (.unsupportedNaturalJoinType "natural-semi") ∧
    using_join ["id"] ["id"] "cross2" (some ["id"]) =
      .ok (.nativeCall ["id"] "cross2") := by
  constructor
  · exact c6_kind_validation.1 ["id"] ["id"] "natural-semi"
      (by decide) (by decide) (by decide)
  · exact c6_kind_validation.2 ["id"] ["id"] "cross2" ["id"]
      (by decide) (by decide) (by decide) (by decide) (by decide)

/-! ### C7: backward as-of semantics -/

/-- C7: the claim (and the function's own documentation) says a backward
as-of join matches each left row to at most one right row — the greatest
comparison value that is ≤ the left value — but the emitted query is a
plain `LEFT JOIN ... ON l."ts" >= r."ts"`, so the left row at ts=10 matches
both right rows ts=8 and ts=9 and appears twice in the output, instead of
once matched to ts=9. -/
theorem c7_backward_left_join_multi_match :
    asofRunOr (asof_join ["ts"] ["ts"] "l" "r" ["ts"] [] ">=")
      [[("ts", 10)]] [[("ts", 8)], [("ts", 9)]] =
      [([("ts", 10)], some [("ts", 8)]), ([("ts", 10)], some [("ts", 9)])] := by
  decide

/-! ### C8: nearest as-of semantics -/

/-- C8, counterexample: the claim says a `nearest` as-of join matches each
left row to the single right row of minimal absolute difference within the
grouping keys, ties broken toward the earlier right value; but (a) at a tie
(right ts=9 and ts=11 are both at distance 1 from left ts=10) both right
rows are matched and the left row appears twice, and (b) the minimum is
taken over all right rows ignoring the grouping columns, so a left row in
group g=1 matches nothing when the global minimum is achieved only in group
g=2 (right (g=1, ts=7) is at distance 3, the global minimum 0 comes from
(g=2, ts=10), so the left row is emitted unmatched). -/
theorem c8_counterexample :
    asofRunOr (asof_join ["ts"] ["ts"] "l" "r" ["ts"] [] "nearest")
      [[("ts", 10)]] [[("ts", 9)], [("ts", 11)]] =
      [([("ts", 10)], some [("ts", 9)]), ([("ts", 10)], some [("ts", 11)])] ∧
    asofRunOr (asof_join ["g", "ts"] ["g", "ts"] "l" "r" ["ts"] ["g"] "nearest")
      [[("g", 1), ("ts", 10)]] [[("g", 1), ("ts", 7)], [("g", 2), ("ts", 10)]] =
      [([("g", 1), ("ts", 10)], none)] := by decide

/-- C8, amended: in a `nearest` as-of join, a left row is matched to exactly
those right rows that agree on the grouping columns and whose absolute
difference on the comparison column equals the minimum absolute difference
taken over all right rows (regardless of grouping); ties are not broken —
every minimizer is returned. -/
theorem c8_nearest_semantics (L R : List String) (la ra : String)
    (onC : String) (rest byCols : List String) (plan : AsofPlan)
    (ls rs : List Row) (l r : Row)
    (h : asof_join L R la ra (onC :: rest) byCols "nearest" = .ok plan) :
    ((l, some r) ∈ asofRun plan ls rs ↔
      l ∈ ls ∧ r ∈ rs ∧ byEqRows byCols l r = true ∧
      globalMinAbs onC l rs = some (absDiff onC l r)) := by
  obtain ⟨hby, hop, hsel, hcol⟩ :=
    asof_join_ok_fields L R la ra (onC :: rest) byCols "nearest" plan h
  have hcol2 : plan.onCol = onC := hcol onC rest rfl
  unfold asofRun
  rw [mem_some_leftJoinMatches]
  constructor
  · rintro ⟨hl, hr, hp⟩
    rw [hby, hop, hcol2] at hp
    obtain ⟨hbe, hg⟩ := (asofPred_nearest onC byCols rs l r).mp hp
    exact ⟨hl, hr, hbe, hg⟩
  · rintro ⟨hl, hr, hbe, hg⟩
    refine ⟨hl, hr, ?_⟩
    rw [hby, hop, hcol2]
    exact (asofPred_nearest onC byCols rs l r).mpr ⟨hbe, hg⟩

/-- C8, witness: `c8_nearest_semantics` at a concrete input — right row
ts=9 is at the minimal distance 1 from left row ts=10 and is matched. -/
theorem c8_witness :
    ([("ts", 10)], some [("ts", 9)]) ∈
      asofRunOr (asof_join ["ts"] ["ts"] "lw" "rw" ["ts"] [] "nearest")
        [[("ts", 10)]] [[("ts", 9)], [("ts", 11)]] := by
  have hok : asof_join ["ts"] ["ts"] "lw" "rw" ["ts"] [] "nearest" =
      .ok { onCol := "ts", byCols := [], op := "nearest", selectNames := ["ts"],
            onClauses := ["ABS(lw.\"ts\" - rw.\"ts\") = (SELECT MIN(ABS(lw.\"ts\" - rw.\"ts\")) FROM rw)"],
            sql := "\n        SELECT lw.\"ts\" AS \"ts\"\n        FROM lw\n        LEFT JOIN rw\n        ON ABS(lw.\"ts\" - rw.\"ts\") = (SELECT MIN(ABS(lw.\"ts\" - rw.\"ts\")) FROM rw)\n        " } := by
    decide
  rw [hok]
  show ([("ts", 10)], some [("ts", 9)]) ∈ asofRun _ _ _
  exact (c8_nearest_semantics ["ts"] ["ts"] "lw" "rw" "ts" [] [] _
    [[("ts", 10)]] [[("ts", 9)], [("ts", 11)]] [("ts", 10)] [("ts", 9)]
    hok).mpr ⟨by decide, by decide, by decide, by decide⟩

/-! ### C9: alias validation order -/

/-- C9: `asof_join` with an empty left alias fails with the left-alias
error for every input (even with nonexistent key columns and an invalid
operator, showing the check precedes column validation and operator
dispatch), and with a non-empty left alias and empty right alias it fails
with the right-alias error; in both cases no query is executed. -/
theorem c9_alias_checked_first :
    (∀ (L R : List String) (ra : String) (onCols byCols : List String)
      (op : String),
      asof_join L R "" ra onCols byCols op = .error .leftAliasMissing) ∧
    (∀ (L R : List String) (la : String) (onCols byCols : List String)
      (op : String), la ≠ "" →
      asof_join L R la "" onCols byCols op = .error .rightAliasMissing) := by
  constructor
  · intro L R ra onCols byCols op
    unfold asof_join
    rw [if_pos rfl]
  · intro L R la onCols byCols op hla
    unfold asof_join
    rw [if_neg hla, if_pos rfl]

/-- C9, witness: `c9_alias_checked_first` at relations with no columns, a
key list naming a nonexistent column and a bogus operator — the alias
errors still win. -/
theorem c9_witness :
    asof_join [] [] "" "r" ["nope"] ["nada"] "bogus" =
      .error .leftAliasMissing ∧
    asof_join [] [] "l" "" ["nope"] ["nada"] "bogus" =
      .error .rightAliasMissing :=
  ⟨c9_alias_checked_first.1 [] [] "r" ["nope"] ["nada"] "bogus",
   c9_alias_checked_first.2 [] [] "l" ["nope"] ["nada"] "bogus" (by decide)⟩

/-! ### C10: only the first on-column is used -/

/-- C10: when the trailing `on` columns exist on both sides, `asof_join` on
`a :: rest` returns exactly the same result as on `[a]` alone (only
`on_columns[0]` enters the comparison predicate and the emitted query), and
yet every listed `on` column is validated on both sides — a trailing column
missing from the right relation makes the call fail with the
second-relation error before any query executes. -/
theorem c10_only_first_on_column_used :
    (∀ (L R : List String) (la ra : String) (a : String)
      (rest byCols : List String) (op : String),
      rest.filter (fun c => !(memLower c L)) = [] →
      rest.filter (fun c => !(memLower c R)) = [] →
      asof_join L R la ra (a :: rest) byCols op =
        asof_join L R la ra [a] byCols op) ∧
    (∀ (L R : List String) (la ra : String) (onCols byCols : List String)
      (op : String),
      la ≠ "" → ra ≠ "" →
      onCols.filter (fun c => !(memLower c L)) = [] →
      onCols.filter (fun c => !(memLower c R)) ≠ [] →
      asof_join L R la ra onCols byCols op =
        .error (.missingOnSecond (onCols.filter (fun c => !(memLower c R))))) := by
  constructor
  · intro L R la ra a rest byCols op h1 h2
    simp only [asof_join, List.filter_cons, List.filter_nil, h1, h2]
  · intro L R la ra onCols byCols op hla hra h3 h4
    unfold asof_join
    rw [if_neg hla, if_neg hra, if_neg (by simp [h3]), if_pos h4]

/-- C10, witness: `c10_only_first_on_column_used` at concrete inputs — the
two-column `on` list `["ts", "v"]` gives the same call as `["ts"]`, and the
list `["ts", "w"]` with "w" absent on the right fails with the
second-relation error. -/
theorem c10_witness :
    asof_join ["ts", "v"] ["ts", "v"] "lt" "rt" ["ts", "v"] [] ">=" =
      asof_join ["ts", "v"] ["ts", "v"] "lt" "rt" ["ts"] [] ">=" ∧
    asof_join ["ts", "w"] ["ts"] "lt" "rt" ["ts", "w"] [] ">=" =
      .error (.missingOnSecond ["w"]) := by
  constructor
  · exact c10_only_first_on_column_used.1 ["ts", "v"] ["ts", "v"] "lt" "rt"
      "ts" ["v"] [] ">=" (by decide) (by decide)
  · exact c10_only_first_on_column_used.2 ["ts", "w"] ["ts"] "lt" "rt"
      ["ts", "w"] [] ">=" (by decide) (by decide) (by decide) (by decide)
